import Mathlib

/-!
Verification of the `staff` music-theory core: letters, accidentals,
pitch classes, enharmonic note spelling, and transposition.

The embedding follows `src/lib.rs` and `src/note/mod.rs`.  The modules
`pitch`, `interval`, `letter` and `accidental` are declared in the
crate but their files are not present; their definitions are modelled
from the specification (§3, §4.1) and marked as such below.
-/

namespace Staff

/-- The seven natural note names, as in the crate's `letter` module. -/
inductive Letter
  | C
  | D
  | E
  | F
  | G
  | A
  | B
  deriving DecidableEq, Fintype, Repr

/-- Pitch modifiers, as in the crate's `accidental` module.  The variant
`Natrual` keeps the source's spelling. -/
inductive Accidental
  | DoubleFlat
  | Flat
  | Natrual
  | Sharp
  | DoubleSharp
  deriving DecidableEq, Fintype, Repr

/-- A spelled note: a letter together with an accidental (`note/mod.rs`). -/
structure Note where
  letter : Letter
  accidental : Accidental
  deriving DecidableEq, Fintype, Repr

/-- Modelled from the spec: the `pitch` module is not under `src/`.
§3: a chromatic pitch class, an integer in the closed range [0, 11]. -/
abbrev Pitch := Fin 12

/-- Modelled from the spec: the `interval` module is not under `src/`.
§3: a signed integer semitone count, with no range restriction. -/
abbrev Interval := Int

/-- Modelled from the spec, §4.1: construction of a `Pitch` from a raw
semitone count, normalized into [0, 11] by true mathematical modulo
(never negative). -/
def Pitch.fromInt (i : Int) : Pitch :=
  ⟨(i.emod 12).toNat, by
    have h1 : 0 ≤ i.emod 12 := Int.emod_nonneg i (by decide)
    have h2 : i.emod 12 < 12 := Int.emod_lt_of_pos i (by decide)
    omega⟩

def Pitch.C : Pitch := 0
def Pitch.C_SHARP : Pitch := 1
def Pitch.D : Pitch := 2
def Pitch.D_SHARP : Pitch := 3
def Pitch.E : Pitch := 4
def Pitch.F : Pitch := 5
def Pitch.F_SHARP : Pitch := 6
def Pitch.G : Pitch := 7
def Pitch.G_SHARP : Pitch := 8
def Pitch.A : Pitch := 9
def Pitch.A_SHARP : Pitch := 10
def Pitch.B : Pitch := 11

/-- Modelled from the spec, §4.1: the `base_offset` table of the missing
`letter` module: C=0, D=2, E=4, F=5, G=7, A=9, B=11. -/
def Letter.base_offset : Letter → Nat
  | .C => 0
  | .D => 2
  | .E => 4
  | .F => 5
  | .G => 7
  | .A => 9
  | .B => 11

/-- Modelled from the spec, §3: the semitone delta of the missing
`accidental` module: DoubleFlat=−2, Flat=−1, Natural=0, Sharp=+1,
DoubleSharp=+2. -/
def Accidental.delta : Accidental → Int
  | .DoubleFlat => -2
  | .Flat => -1
  | .Natrual => 0
  | .Sharp => 1
  | .DoubleSharp => 2

/-- Modelled from the spec, §4.1: `Pitch::from_note` of the missing
`pitch` module computes `base_offset(letter) + delta(accidental)`,
normalized mod 12. -/
def Pitch.from_note (n : Note) : Pitch :=
  Pitch.fromInt ((Letter.base_offset n.letter : Int) + Accidental.delta n.accidental)

/-- Modelled from the spec, §4.1: `Pitch - Pitch -> Interval` of the
missing `pitch` module; the result is the smallest non-negative
representative in [0, 11]. -/
def Pitch.sub (a b : Pitch) : Interval :=
  ((a.val : Int) - (b.val : Int)).emod 12

/-- Modelled from the spec, §4.1: `Pitch + Interval -> Pitch` of the
missing `pitch` module, normalized mod 12. -/
def Pitch.add (p : Pitch) (i : Interval) : Pitch :=
  Pitch.fromInt ((p.val : Int) + i)

/-- `transpose` from `src/lib.rs`: `let f = key - note; to + f`. -/
def transpose (key note «to» : Pitch) : Pitch :=
  Pitch.add «to» (Pitch.sub key note)

def Note.new (letter : Letter) (accidental : Accidental) : Note :=
  ⟨letter, accidental⟩

def Note.natural (letter : Letter) : Note :=
  Note.new letter Accidental.Natrual

def Note.flat (letter : Letter) : Note :=
  Note.new letter Accidental.Flat

def Note.sharp (letter : Letter) : Note :=
  Note.new letter Accidental.Sharp

/-- The match arms of `Note::from_sharp` (`note/mod.rs`), keyed by the
byte value of the scrutinised `Pitch` constant; the catch-all
`unreachable!()` arm is modelled as `none`. -/
def Note.from_sharp_checked : Nat → Option Note
  | 0 => some (Note.natural .C)
  | 1 => some (Note.sharp .C)
  | 2 => some (Note.natural .D)
  | 3 => some (Note.sharp .D)
  | 4 => some (Note.natural .E)
  | 5 => some (Note.natural .F)
  | 6 => some (Note.sharp .F)
  | 7 => some (Note.natural .G)
  | 8 => some (Note.sharp .G)
  | 9 => some (Note.natural .A)
  | 10 => some (Note.sharp .A)
  | 11 => some (Note.natural .B)
  | _ => none

/-- The match arms of `Note::from_flat` (`note/mod.rs`); the catch-all
`unreachable!()` arm is modelled as `none`. -/
def Note.from_flat_checked : Nat → Option Note
  | 0 => some (Note.natural .C)
  | 1 => some (Note.flat .D)
  | 2 => some (Note.natural .D)
  | 3 => some (Note.flat .E)
  | 4 => some (Note.natural .E)
  | 5 => some (Note.natural .F)
  | 6 => some (Note.flat .G)
  | 7 => some (Note.natural .G)
  | 8 => some (Note.flat .A)
  | 9 => some (Note.natural .A)
  | 10 => some (Note.flat .B)
  | 11 => some (Note.natural .B)
  | _ => none

/-- `Note::from_sharp`, total over the 12-value `Pitch` domain; the
default is never used (see the totality theorem). -/
def Note.from_sharp (p : Pitch) : Note :=
  (Note.from_sharp_checked p.val).getD (Note.natural .C)

/-- `Note::from_flat`, total over the 12-value `Pitch` domain; the
default is never used (see the totality theorem). -/
def Note.from_flat (p : Pitch) : Note :=
  (Note.from_flat_checked p.val).getD (Note.natural .C)

/-- `Note::into_sharp` (`note/mod.rs`). -/
def Note.into_sharp (n : Note) : Note :=
  Note.from_sharp (Pitch.from_note n)

/-- `Note::into_flat` (`note/mod.rs`). -/
def Note.into_flat (n : Note) : Note :=
  Note.from_flat (Pitch.from_note n)

/-- `Note::is_enharmonic` (`note/mod.rs`). -/
def Note.is_enharmonic (n other : Note) : Bool :=
  Pitch.from_note n = Pitch.from_note other

/-- Modelled from the spec: the `letter` module with its Display
implementation is not under `src/`; §4.2's Display contract renders the
letter as its name. -/
def Letter.toString : Letter → String
  | .C => "C"
  | .D => "D"
  | .E => "E"
  | .F => "F"
  | .G => "G"
  | .A => "A"
  | .B => "B"

/-- The accidental-symbol match of `impl fmt::Display for Note`
(`note/mod.rs`). -/
def Note.accidentalSymbol : Accidental → String
  | .Natrual => ""
  | .Sharp => "#"
  | .DoubleSharp => "##"
  | .Flat => "b"
  | .DoubleFlat => "bb"

/-- `impl fmt::Display for Note`: the letter followed by the accidental
symbol. -/
def Note.toString (n : Note) : String :=
  Letter.toString n.letter ++ Note.accidentalSymbol n.accidental

/-- Claim C1, counterexample: `transpose(Pitch::C, Pitch::D, Pitch::D)` does
not return `Pitch::E`; with the non-negative mod-12 subtraction convention,
`f = key - note = 0 - 2 ≡ 10` and `to + f = 2 + 10 ≡ 0`, not 4. -/
theorem transpose_C_D_D_ne_E : transpose Pitch.C Pitch.D Pitch.D ≠ Pitch.E := by
  decide

/-- Claim C1, amended: `transpose(Pitch::C, Pitch::D, Pitch::D)` returns
`Pitch::C` (pitch class 0): `f = key - note ≡ 10` and `to + f = 2 + 10 ≡ 0`. -/
theorem transpose_C_D_D_eq_C : transpose Pitch.C Pitch.D Pitch.D = Pitch.C := by
  decide

/-- Claim C2, counterexample: `Note::sharp(Letter::B)` has accidental Sharp,
yet `into_sharp` does not leave it unchanged: it yields `Note::natural(Letter::C)`. -/
theorem into_sharp_sharp_B_not_fixed :
    (Note.sharp .B).accidental = Accidental.Sharp ∧
      (Note.sharp .B).into_sharp ≠ Note.sharp .B := by
  decide

/-- Claim C2, amended: `into_sharp` leaves every natural note unchanged, and
every sharp note except sharp E and sharp B, which become natural F and
natural C; applying it to a flat note yields a note in sharp notation
(accidental Natural or Sharp) with the same pitch class. -/
theorem into_sharp_amended :
    (∀ l : Letter, (Note.natural l).into_sharp = Note.natural l) ∧
      (Note.sharp .C).into_sharp = Note.sharp .C ∧
      (Note.sharp .D).into_sharp = Note.sharp .D ∧
      (Note.sharp .F).into_sharp = Note.sharp .F ∧
      (Note.sharp .G).into_sharp = Note.sharp .G ∧
      (Note.sharp .A).into_sharp = Note.sharp .A ∧
      (Note.sharp .E).into_sharp = Note.natural .F ∧
      (Note.sharp .B).into_sharp = Note.natural .C ∧
      (∀ l : Letter,
        Pitch.from_note ((Note.flat l).into_sharp) = Pitch.from_note (Note.flat l) ∧
          (((Note.flat l).into_sharp).accidental = Accidental.Natrual ∨
            ((Note.flat l).into_sharp).accidental = Accidental.Sharp)) := by
  decide

/-- Claim C3: for every pitch class p, both spelling tables round-trip
through the note-to-pitch conversion:
`Pitch::from_note(Note::from_sharp(p)) == p` and likewise for `from_flat`. -/
theorem from_sharp_from_flat_roundtrip :
    ∀ p : Pitch,
      Pitch.from_note (Note.from_sharp p) = p ∧
        Pitch.from_note (Note.from_flat p) = p := by
  decide

/-- Claim C4: for every note n (every letter with every accidental,
double accidentals included), re-spelling preserves the pitch class:
`Pitch::from_note(n.into_sharp()) == Pitch::from_note(n)` and likewise
for `into_flat()`. -/
theorem respell_preserves_pitch :
    ∀ n : Note,
      Pitch.from_note n.into_sharp = Pitch.from_note n ∧
        Pitch.from_note n.into_flat = Pitch.from_note n := by
  decide

/-- Claim C5: `into_sharp` and `into_flat` are idempotent:
`n.into_sharp().into_sharp() == n.into_sharp()` and likewise for flats. -/
theorem into_sharp_into_flat_idempotent :
    ∀ n : Note,
      n.into_sharp.into_sharp = n.into_sharp ∧
        n.into_flat.into_flat = n.into_flat := by
  decide

/-- Claim C6: the four concrete re-spelling equalities, including the B→C
wrap-around case. -/
theorem respell_concrete_cases :
    (Note.sharp .G).into_flat = Note.flat .A ∧
      (Note.flat .F).into_flat = Note.natural .E ∧
      (Note.flat .D).into_sharp = Note.sharp .C ∧
      (Note.sharp .B).into_sharp = Note.natural .C := by
  decide

/-- Claim C7: `from_sharp` and `from_flat` are total over the 12-value
`Pitch` domain: for every pitch class, one of the 12 listed match arms
fires (the checked match returns `some`, never the `unreachable!()`
catch-all), and the arm's value is what `from_sharp`/`from_flat` return. -/
theorem from_sharp_from_flat_total :
    ∀ p : Pitch,
      Note.from_sharp_checked p.val = some (Note.from_sharp p) ∧
        Note.from_flat_checked p.val = some (Note.from_flat p) := by
  decide

/-- Claim C8: Display renders a note as the letter followed by the
accidental symbol, with symbols "", "#", "##", "b", "bb" for Natural,
Sharp, DoubleSharp, Flat, DoubleFlat; in particular C# , Bb and A render
as claimed. -/
theorem note_display_spec :
    Note.accidentalSymbol Accidental.Natrual = "" ∧
      Note.accidentalSymbol Accidental.Sharp = "#" ∧
      Note.accidentalSymbol Accidental.DoubleSharp = "##" ∧
      Note.accidentalSymbol Accidental.Flat = "b" ∧
      Note.accidentalSymbol Accidental.DoubleFlat = "bb" ∧
      (∀ n : Note, n.toString = Letter.toString n.letter ++ Note.accidentalSymbol n.accidental) ∧
      (Note.sharp .C).toString = "C#" ∧
      (Note.flat .B).toString = "Bb" ∧
      (Note.natural .A).toString = "A" := by
  decide

/-- Claim C9: `from_sharp` only produces notes with accidental Natural or
Sharp and `from_flat` only Natural or Flat; consequently `into_sharp`
never produces a flat or double accidental and `into_flat` never a sharp
or double accidental. -/
theorem spelling_accidental_range :
    (∀ p : Pitch,
        ((Note.from_sharp p).accidental = Accidental.Natrual ∨
          (Note.from_sharp p).accidental = Accidental.Sharp) ∧
        ((Note.from_flat p).accidental = Accidental.Natrual ∨
          (Note.from_flat p).accidental = Accidental.Flat)) ∧
      (∀ n : Note,
        (n.into_sharp.accidental = Accidental.Natrual ∨
          n.into_sharp.accidental = Accidental.Sharp) ∧
        (n.into_flat.accidental = Accidental.Natrual ∨
          n.into_flat.accidental = Accidental.Flat)) := by
  decide

/-- Claim C10: for every key and target pitch, `transpose(key, key, to) == to`:
the interval `key - key` is zero, so the result is the new tonic unchanged. -/
theorem transpose_key_key :
    ∀ key t : Pitch, transpose key key t = t := by
  decide

end Staff
